import Mathlib

/-!
# Verification of the shared-solar allocation engine

Shallow embedding, over `ℚ`, of the allocation scenarios of the repository
(`src/Projeto/cenario1.py`, `src/Projeto/cenario2.py`,
`src/Projeto/cenario2 copy.py`, `src/Projeto/cenario3 copy.py`,
`src/app.py`, `src/app2.py`), together with theorems settling claims about
the design.

Heuristic scenarios become executable functions.  Each PuLP optimization
model becomes a feasibility predicate listing, constraint by constraint,
exactly the constraints (and variable bounds) that the Python code adds to
the model; a "produced solution" of an optimization scenario is any
assignment satisfying the model's constraints, which is precisely what the
external solver guarantees about the values it returns.  Status-dispatch
logic around the solver is embedded as `Except`-valued functions, where
`Except.error` models a raised Python exception.

Python `float` data is modelled as `ℚ`; all numeric literals of the source
are exact decimal fractions, so nothing is lost.  `numpy` row/period sums
are embedded by the recursor `sumR` below.
-/

namespace SolarAlloc

/-- Sum of `f 0 + f 1 + ... + f (n-1)`: the embedding of `np.sum` /
`pulp.lpSum` over a `range`. -/
def sumR : ℕ → (ℕ → ℚ) → ℚ
  | 0, _ => 0
  | n + 1, f => sumR n f + f n

/-- Parameters shared by the heuristic scenarios: the `params` dict built by
`config.configurar_parametros` as consumed by `cenario1.py` / `cenario2.py`.
Matrices become total functions with explicit dimensions. -/
structure HeurParams where
  num_residencias : ℕ
  num_horas : ℕ
  demanda_residencias : ℕ → ℕ → ℚ
  geracao_solar : ℕ → ℚ

namespace Cenario1

/-- `total_demanda = np.sum(demanda_residencias[:, t])` in
`cenario_1_proporcional_simples` (src/Projeto/cenario1.py). -/
def total_demanda (p : HeurParams) (t : ℕ) : ℚ :=
  sumR p.num_residencias fun i => p.demanda_residencias i t

/-- `aloc[:, t]` of `cenario_1_proporcional_simples`: inside the
`total_demanda > 0` guard, `proporcao * min(geracao_solar[t], total_demanda)`
with `proporcao = demanda_residencias[:, t] / total_demanda`; outside the
guard the initial `np.zeros` entry is kept. -/
def aloc (p : HeurParams) (i t : ℕ) : ℚ :=
  if 0 < total_demanda p t then
    (p.demanda_residencias i t / total_demanda p t) *
      min (p.geracao_solar t) (total_demanda p t)
  else 0

/-- `rede[:, t] = np.maximum(0, demanda_residencias[:, t] - aloc[:, t])`. -/
def rede (p : HeurParams) (i t : ℕ) : ℚ :=
  max 0 (p.demanda_residencias i t - aloc p i t)

/-- `excedente[t] = max(0, geracao_solar[t] - total_demanda)` inside the
guard; zero (the `np.zeros` initial value) otherwise. -/
def excedente (p : HeurParams) (t : ℕ) : ℚ :=
  if 0 < total_demanda p t then max 0 (p.geracao_solar t - total_demanda p t)
  else 0

end Cenario1

namespace Cenario2H

/-- `pesos_prioridade = np.array([5.0 if i % 2 == 0 else 1.0 ...])`
(src/Projeto/cenario2.py). -/
def pesos_prioridade (i : ℕ) : ℚ := if i % 2 = 0 then 5 else 1

/-- `demanda_ponderada = demanda_residencias[:, t] * pesos_prioridade`. -/
def demanda_ponderada (p : HeurParams) (i t : ℕ) : ℚ :=
  p.demanda_residencias i t * pesos_prioridade i

/-- `total_demanda_ponderada = np.sum(demanda_ponderada)`. -/
def total_demanda_ponderada (p : HeurParams) (t : ℕ) : ℚ :=
  sumR p.num_residencias fun i => demanda_ponderada p i t

/-- `aloc[:, t]` of `cenario_2_priorizacao_tarifa_social`
(src/Projeto/cenario2.py): inside the `total_demanda_ponderada > 0` guard,
`proporcao_ponderada * min(geracao_solar[t], np.sum(demanda_residencias[:, t]))`. -/
def aloc (p : HeurParams) (i t : ℕ) : ℚ :=
  if 0 < total_demanda_ponderada p t then
    (demanda_ponderada p i t / total_demanda_ponderada p t) *
      min (p.geracao_solar t) (Cenario1.total_demanda p t)
  else 0

/-- `rede[:, t] = np.maximum(0, demanda_residencias[:, t] - aloc[:, t])`. -/
def rede (p : HeurParams) (i t : ℕ) : ℚ :=
  max 0 (p.demanda_residencias i t - aloc p i t)

end Cenario2H

namespace Cenario2M

/-- Parameters read from `params` by `cenario_2_mono_objetivo`
(src/Projeto/cenario2 copy.py). -/
structure Params where
  num_residencias : ℕ
  num_horas : ℕ
  demanda_residencias : ℕ → ℕ → ℚ
  geracao_solar : ℕ → ℚ
  eficiencia_rede : ℕ → ℚ
  pesos_prioridade_c2 : ℕ → ℚ
  demanda_base_ajustada : ℚ
  demandas_minimas_residencias : ℕ → ℚ
  limite_fluxo_hora : ℚ
  limite_injecao_rede : ℕ → ℚ

/-- One value for every decision variable of the `Cenario_2` PuLP model. -/
structure Assign where
  x : ℕ → ℕ → ℚ
  y : ℕ → ℕ → ℚ
  u : ℕ → ℕ → ℚ
  z : ℕ → ℚ

/-- Every constraint and variable bound that `cenario_2_mono_objetivo` adds
to the `Cenario_2` model, in source order: `x` continuous in `[0,1]`, `y`
binary, `u, z >= 0`; per period the capacity bound, the hourly-flow bound,
the capacity-plus-surplus bound and the injection bound; per residence the
two minimum-service bounds over the horizon, and per period the one-sided
coverage inequality `x*d + u >= d` and the gating `x <= y`. -/
def Feasible (p : Params) (s : Assign) : Prop :=
  (∀ i < p.num_residencias, ∀ t < p.num_horas,
    0 ≤ s.x i t ∧ s.x i t ≤ 1 ∧ (s.y i t = 0 ∨ s.y i t = 1) ∧ 0 ≤ s.u i t) ∧
  (∀ t < p.num_horas, 0 ≤ s.z t) ∧
  (∀ t < p.num_horas,
    sumR p.num_residencias (fun i => s.x i t * p.demanda_residencias i t) ≤
      p.eficiencia_rede t * p.geracao_solar t ∧
    sumR p.num_residencias (fun i => s.x i t * p.demanda_residencias i t) ≤
      p.limite_fluxo_hora ∧
    sumR p.num_residencias (fun i => s.x i t * p.demanda_residencias i t) + s.z t ≤
      p.eficiencia_rede t * p.geracao_solar t ∧
    s.z t ≤ p.limite_injecao_rede t) ∧
  (∀ i < p.num_residencias,
    p.demanda_base_ajustada ≤
      sumR p.num_horas (fun t => s.x i t * p.demanda_residencias i t) ∧
    p.demandas_minimas_residencias i ≤
      sumR p.num_horas (fun t => s.x i t * p.demanda_residencias i t) ∧
    ∀ t < p.num_horas,
      p.demanda_residencias i t ≤
        s.x i t * p.demanda_residencias i t + s.u i t ∧
      s.x i t ≤ s.y i t)

/-- Result-matrix extraction of `cenario_2_mono_objetivo`:
`aloc[i, t] = max(0, x[i, t].varValue or 0) * demanda_residencias[i][t]`. -/
def aloc (p : Params) (s : Assign) (i t : ℕ) : ℚ :=
  max 0 (s.x i t) * p.demanda_residencias i t

/-- `rede[i, t] = max(0, u[i, t].varValue or 0)`. -/
def rede (s : Assign) (i t : ℕ) : ℚ := max 0 (s.u i t)

/-- `excedente[t] = max(0, z[t].varValue or 0)`. -/
def excedente (s : Assign) (t : ℕ) : ℚ := max 0 (s.z t)

/-- Status dispatch of `cenario_2_mono_objetivo` after `modelo.solve`:
`if modelo.status != 1: raise ValueError(...)`, otherwise the matrices are
extracted and returned.  An `Except.error` models the raised `ValueError`. -/
def run (p : Params) (status : ℤ) (s : Assign) :
    Except String ((ℕ → ℕ → ℚ) × (ℕ → ℕ → ℚ) × (ℕ → ℚ)) :=
  if status ≠ 1 then .error "Solver falhou para o Cenário 2"
  else .ok (aloc p s, rede s, excedente s)

end Cenario2M

namespace Cenario3

/-- Parameters read from `params` by `cenario_3_multiobjetivo`
(src/Projeto/cenario3 copy.py). -/
structure Params where
  num_residencias : ℕ
  num_horas : ℕ
  demanda_residencias : ℕ → ℕ → ℚ
  geracao_solar : ℕ → ℚ
  eficiencia_rede : ℕ → ℚ
  demanda_base_ajustada : ℚ
  demandas_minimas_residencias : ℕ → ℚ
  limite_injecao_rede : ℕ → ℚ
  tarifas_residencias : ℕ → ℕ → ℚ

/-- `pesos_objetivos_c3 = [0.7, 0.05, 0.1, 0.15]` (local constant of
`cenario_3_multiobjetivo`). -/
def pesos_objetivos_c3 : List ℚ := [7/10, 5/100, 1/10, 15/100]

/-- `pesos_prioridade = [1.0 for _ in range(num_residencias)]`. -/
def pesos_prioridade (_ : ℕ) : ℚ := 1

/-- One value for every decision variable of the `Cenario_3` PuLP model. -/
structure Assign where
  x : ℕ → ℕ → ℚ
  u : ℕ → ℕ → ℚ
  z : ℕ → ℚ
  v : ℕ → ℚ
  creditos : ℕ → ℚ

/-- `total_alocado = lpSum(x[i, t] * demanda_residencias[i][t] ...)`. -/
def total_alocado (p : Params) (s : Assign) : ℚ :=
  sumR p.num_residencias fun i =>
    sumR p.num_horas fun t => s.x i t * p.demanda_residencias i t

/-- `media_alocado = total_alocado / num_residencias`. -/
def media_alocado (p : Params) (s : Assign) : ℚ :=
  total_alocado p s / (p.num_residencias : ℚ)

/-- Every constraint and variable bound that `cenario_3_multiobjetivo` adds
to the `Cenario_3` model, in source order: all variables bounded below by
zero; per period the capacity bound, the `0.99 * geracao` bound, the
capacity-plus-surplus bound, the injection bound, the surplus-credit
equation `creditos[t] == z[t] * 0.9`, and for the peak hours `15 <= t <= 18`
the grid-draw cap; per residence the halved minimum-service bound and the
credit-relaxed coverage inequality; finally the equity constraints on the
deviation variables `v`. -/
def Feasible (p : Params) (s : Assign) : Prop :=
  (∀ i < p.num_residencias, ∀ t < p.num_horas, 0 ≤ s.x i t ∧ 0 ≤ s.u i t) ∧
  (∀ t < p.num_horas, 0 ≤ s.z t ∧ 0 ≤ s.creditos t) ∧
  (∀ i < p.num_residencias, 0 ≤ s.v i) ∧
  (∀ t < p.num_horas,
    sumR p.num_residencias (fun i => s.x i t * p.demanda_residencias i t) ≤
      p.eficiencia_rede t * p.geracao_solar t ∧
    sumR p.num_residencias (fun i => s.x i t * p.demanda_residencias i t) ≤
      (99/100) * p.geracao_solar t ∧
    sumR p.num_residencias (fun i => s.x i t * p.demanda_residencias i t) + s.z t ≤
      p.eficiencia_rede t * p.geracao_solar t ∧
    s.z t ≤ p.limite_injecao_rede t ∧
    s.creditos t = s.z t * (9/10) ∧
    (15 ≤ t → t ≤ 18 →
      sumR p.num_residencias (fun i => s.u i t) ≤
        (1/10) * sumR p.num_residencias (fun i => p.demanda_residencias i t))) ∧
  (∀ i < p.num_residencias,
    min p.demanda_base_ajustada (p.demandas_minimas_residencias i) * (1/2) ≤
      sumR p.num_horas (fun t => s.x i t * p.demanda_residencias i t) ∧
    ∀ t < p.num_horas,
      p.demanda_residencias i t -
          sumR t (fun s' => s.creditos s') / (p.num_residencias : ℚ) ≤
        s.x i t * p.demanda_residencias i t + s.u i t) ∧
  (∀ i < p.num_residencias,
    sumR p.num_horas (fun t => s.x i t * p.demanda_residencias i t) -
        media_alocado p s ≤ s.v i ∧
    media_alocado p s -
        sumR p.num_horas (fun t => s.x i t * p.demanda_residencias i t) ≤ s.v i ∧
    (1/10) * media_alocado p s ≤ s.v i)

/-- `Z_1`: priority-weighted allocated energy over total demand. -/
def Z_1 (p : Params) (s : Assign) : ℚ :=
  (sumR p.num_residencias fun i =>
    sumR p.num_horas fun t =>
      pesos_prioridade i * s.x i t * p.demanda_residencias i t) /
  (sumR p.num_residencias fun i =>
    sumR p.num_horas fun t => p.demanda_residencias i t)

/-- `np.mean(demanda_residencias)`: grand mean of the demand matrix. -/
def mean_demanda (p : Params) : ℚ :=
  (sumR p.num_residencias fun i =>
    sumR p.num_horas fun t => p.demanda_residencias i t) /
  ((p.num_residencias : ℚ) * (p.num_horas : ℚ))

/-- `Z_2`: equity-deviation total over `num_residencias * np.mean(demanda)`. -/
def Z_2 (p : Params) (s : Assign) : ℚ :=
  (sumR p.num_residencias fun i => s.v i) /
  ((p.num_residencias : ℚ) * mean_demanda p)

/-- `Z_3`: grid-draw total over total demand. -/
def Z_3 (p : Params) (s : Assign) : ℚ :=
  (sumR p.num_residencias fun i => sumR p.num_horas fun t => s.u i t) /
  (sumR p.num_residencias fun i =>
    sumR p.num_horas fun t => p.demanda_residencias i t)

/-- `Z_4`: tariff-weighted grid cost over tariff-weighted demand. -/
def Z_4 (p : Params) (s : Assign) : ℚ :=
  (sumR p.num_residencias fun i =>
    sumR p.num_horas fun t => p.tarifas_residencias i t * s.u i t) /
  (sumR p.num_residencias fun i =>
    sumR p.num_horas fun t =>
      p.tarifas_residencias i t * p.demanda_residencias i t)

/-- The objective `model += pesos[0]*Z_1 - pesos[1]*Z_2 - pesos[2]*Z_3 -
pesos[3]*Z_4` of `cenario_3_multiobjetivo`. -/
def objetivo (p : Params) (s : Assign) : ℚ :=
  pesos_objetivos_c3.getD 0 0 * Z_1 p s - pesos_objetivos_c3.getD 1 0 * Z_2 p s -
    pesos_objetivos_c3.getD 2 0 * Z_3 p s - pesos_objetivos_c3.getD 3 0 * Z_4 p s

/-- Result-matrix extraction of `cenario_3_multiobjetivo`. -/
def aloc (p : Params) (s : Assign) (i t : ℕ) : ℚ :=
  max 0 (s.x i t) * p.demanda_residencias i t

/-- `rede[i, t] = max(0, u[i, t].varValue or 0)`. -/
def rede (s : Assign) (i t : ℕ) : ℚ := max 0 (s.u i t)

/-- `excedente[t] = max(0, z[t].varValue or 0)`. -/
def excedente (s : Assign) (t : ℕ) : ℚ := max 0 (s.z t)

/-- Status dispatch of `cenario_3_multiobjetivo` after `model.solve`:
`if model.status != 1: raise ValueError(...)`, otherwise the matrices are
extracted and returned. -/
def run (p : Params) (status : ℤ) (s : Assign) :
    Except String ((ℕ → ℕ → ℚ) × (ℕ → ℕ → ℚ) × (ℕ → ℚ)) :=
  if status ≠ 1 then .error "Solver falhou para o Cenário 3"
  else .ok (aloc p s, rede s, excedente s)

end Cenario3

namespace AppModel

/-- The configuration keys of `config.json` that `configurar_modelo_solar`
and `resolver_e_salvar` (src/app.py) read. -/
structure Config where
  N : ℕ
  M : ℕ
  B : ℚ
  r : ℚ
  r_rede : ℚ
  gamma : ℚ
  taxa_disponibilidade : ℚ
  custo_garantia_por_kw : ℚ
  alpha : ℚ
  max_units : ℚ

/-- The data dict produced by `gerar_dados_solares` as read by
`configurar_modelo_solar`: per-residence monthly demand, per-unit power,
installation cost and loss factor, per-residence distribution loss, and
per-unit monthly irradiation. -/
structure Data where
  E_cons : ℕ → ℕ → ℚ
  P : ℕ → ℚ
  c : ℕ → ℚ
  l : ℕ → ℚ
  l_dist : ℕ → ℚ
  k : ℕ → ℕ → ℚ

/-- `T = 12` months, fixed inside `configurar_modelo_solar`. -/
def T : ℕ := 12

/-- One value for every decision variable of the `Consorcio_Solar_12Meses`
model: `x` (binary installation), `E_eff`, and the per-residence matrices
`m` (solar used), `c` (credits generated), `r` (grid energy), `u` (credits
used), `C` (credit stock, one extra period), `a` (allocation fraction),
`E_alloc` (allocated energy). -/
structure Assign where
  x : ℕ → ℚ
  E_eff : ℕ → ℚ
  m : ℕ → ℕ → ℚ
  c : ℕ → ℕ → ℚ
  r : ℕ → ℕ → ℚ
  u : ℕ → ℕ → ℚ
  C : ℕ → ℕ → ℚ
  a : ℕ → ℕ → ℚ
  E_alloc : ℕ → ℕ → ℚ

/-- Every constraint and variable bound that `configurar_modelo_solar` adds
to the `Consorcio_Solar_12Meses` model (the objective is irrelevant to the
claims): the variable category/bound declarations, the five per-month
constraints, the per-residence constraints `E_alloc_Upper` .. `Creditos_Iguais`,
the budget and unit-count constraints, and the initial credit stock. -/
def Feasible (cfg : Config) (dat : Data) (s : Assign) : Prop :=
  (∀ j < cfg.M, s.x j = 0 ∨ s.x j = 1) ∧
  (∀ t < T, 0 ≤ s.E_eff t) ∧
  (∀ i < cfg.N, ∀ t < T,
    0 ≤ s.m i t ∧ 0 ≤ s.c i t ∧ 0 ≤ s.r i t ∧ 0 ≤ s.u i t ∧
    0 ≤ s.a i t ∧ s.a i t ≤ 1 ∧ 0 ≤ s.E_alloc i t) ∧
  (∀ i < cfg.N, ∀ t < T + 1, 0 ≤ s.C i t) ∧
  (∀ t < T,
    s.E_eff t =
      sumR cfg.M (fun j => s.x j * (1 - dat.l j) * dat.k j t * dat.P j) ∧
    s.E_eff t ≤ (3/2) * sumR cfg.N (fun i => dat.E_cons i t) ∧
    cfg.alpha * sumR cfg.N (fun i => dat.E_cons i t) ≤ s.E_eff t ∧
    sumR cfg.N (fun i => s.a i t) = 1 ∧
    sumR cfg.N (fun i => s.E_alloc i t) = s.E_eff t ∧
    (∀ i < cfg.N,
      s.E_alloc i t ≤ s.a i t * 1000000 ∧
      0 ≤ s.E_alloc i t ∧
      s.E_alloc i t ≤ s.E_eff t ∧
      s.m i t ≤ dat.E_cons i t ∧
      s.m i t ≤ (1 - dat.l_dist i) * s.E_alloc i t ∧
      s.c i t = (1 - dat.l_dist i) * s.E_alloc i t - s.m i t ∧
      dat.E_cons i t = s.m i t + s.r i t + s.u i t ∧
      s.C i (t + 1) = s.C i t + s.c i t - s.u i t ∧
      s.u i t ≤ s.C i t ∧
      s.a i t = 1 / (cfg.N : ℚ) ∧
      ∀ j < cfg.N, i < j → s.c i t = s.c j t)) ∧
  sumR cfg.M (fun j => dat.c j * s.x j) ≤ cfg.B ∧
  sumR cfg.M (fun j => s.x j) ≤ cfg.max_units ∧
  (∀ i < cfg.N, s.C i 0 = 0)

/-- The `resultados['totais']` block of `resolver_e_salvar`, initialized to
`[0]*12` in every field. -/
structure Totais where
  economia : ℕ → ℚ
  creditos : ℕ → ℚ
  creditos_usados : ℕ → ℚ
  energia_gerada : ℕ → ℚ
  energia_consumida : ℕ → ℚ
  uso_rede : ℕ → ℚ
  custo_operacional : ℕ → ℚ

/-- The zero-initialized totals dict. -/
def zeroTotais : Totais :=
  { economia := fun _ => 0
    creditos := fun _ => 0
    creditos_usados := fun _ => 0
    energia_gerada := fun _ => 0
    energia_consumida := fun _ => 0
    uso_rede := fun _ => 0
    custo_operacional := fun _ => 0 }

/-- The part of the `resultados` dict returned by `resolver_e_salvar` that
the claims are about. -/
structure Resultados where
  status : String
  totais : Totais

/-- The status dispatch of `resolver_e_salvar` (src/app.py): the result
dict starts with zero-filled totals, the `if status == "Optimal"` block
overwrites them, and the function ends with `return resultados`
unconditionally — a non-Optimal status is returned, with the zero totals,
rather than raised.  `filled` abstracts the totals computed inside the
Optimal branch from the solver values; `Except.error` would model a raised
exception, which the status dispatch never produces. -/
def resolver_e_salvar (status : String) (filled : Totais) :
    Except String Resultados :=
  .ok (if status = "Optimal" then { status := status, totais := filled }
       else { status := status, totais := zeroTotais })

end AppModel

namespace App2

/-- `NUMERO_CONSUMIDORES = 10` (src/app2.py module constant). -/
def NUMERO_CONSUMIDORES : ℕ := 10

/-- `PERIODOS_DIA = 24`. -/
def PERIODOS_DIA : ℕ := 24

/-- `GERACAO_SOLAR = np.array([0, 0, 0, 0, 0, 0.5, 2, 10, 30, 50, 70, 80,
75, 60, 40, 20, 5, 1, 0, 0, 0, 0, 0, 0]) * 0.5` from
`carregar_dados_alagoas` (deterministic, unlike the seeded demand). -/
def GERACAO_SOLAR (t : ℕ) : ℚ :=
  ([0, 0, 0, 0, 0, 1/2, 2, 10, 30, 50, 70, 80,
    75, 60, 40, 20, 5, 1, 0, 0, 0, 0, 0, 0] : List ℚ).getD t 0 * (1/2)

/-- `PERDAS_REDE = 0.074`. -/
def PERDAS_REDE : ℚ := 74/1000

/-- `LIMITE_INJECAO = 0.8 * GERACAO_SOLAR`. -/
def LIMITE_INJECAO (t : ℕ) : ℚ := (8/10) * GERACAO_SOLAR t

/-- `DEMANDA_MINIMA_PRIORITARIOS = 5`. -/
def DEMANDA_MINIMA_PRIORITARIOS : ℚ := 5

/-- One value for every decision variable of the `Alocacao_Solar_Alagoas`
model built by `criar_modelo_otimizacao`. -/
structure Assign where
  alocacao : ℕ → ℕ → ℚ
  creditos : ℕ → ℕ → ℚ
  energia_rede : ℕ → ℕ → ℚ

/-- Every constraint and variable bound that `criar_modelo_otimizacao`
(src/app2.py) adds to the model, in source order, for a given demand matrix
(`DEMANDA_HORARIA` is seeded-random module data, abstracted as a parameter)
and priority-consumer list (derived from the seeded-random `PRIORIDADES`):
`alocacao` binary, `creditos`/`energia_rede` nonnegative; per period the
capacity bound on allocated demand; per consumer/period the credit upper
bound and `creditos >= 0`; per period the injection bound on total credits;
per consumer/period the balance equality; and, in `prioritario` mode only,
the minimum cumulative service of the priority consumers. -/
def Feasible (demanda : ℕ → ℕ → ℚ) (prioritarios : List ℕ) (modo : String)
    (s : Assign) : Prop :=
  (∀ i < NUMERO_CONSUMIDORES, ∀ t < PERIODOS_DIA,
    (s.alocacao i t = 0 ∨ s.alocacao i t = 1) ∧
    0 ≤ s.creditos i t ∧ 0 ≤ s.energia_rede i t) ∧
  (∀ t < PERIODOS_DIA,
    sumR NUMERO_CONSUMIDORES (fun i => demanda i t * s.alocacao i t) ≤
      GERACAO_SOLAR t * (1 - PERDAS_REDE)) ∧
  (∀ i < NUMERO_CONSUMIDORES, ∀ t < PERIODOS_DIA,
    s.creditos i t ≤ GERACAO_SOLAR t * s.alocacao i t - demanda i t ∧
    0 ≤ s.creditos i t) ∧
  (∀ t < PERIODOS_DIA,
    sumR NUMERO_CONSUMIDORES (fun i => s.creditos i t) ≤ LIMITE_INJECAO t) ∧
  (∀ i < NUMERO_CONSUMIDORES, ∀ t < PERIODOS_DIA,
    demanda i t * s.alocacao i t + s.energia_rede i t = demanda i t) ∧
  (modo = "prioritario" → ∀ i ∈ prioritarios,
    DEMANDA_MINIMA_PRIORITARIOS ≤
      sumR PERIODOS_DIA (fun t => demanda i t * s.alocacao i t))

end App2

namespace Sens

/-- The per-candidate outcome of a `resolver_e_salvar` call inside
`analise_sensibilidade` (src/app.py): the solver status string and the
annual saving `sum(res['totais']['economia'])`. -/
structure RunResult where
  status : String
  economia : ℚ

/-- The loop body of `analise_sensibilidade`, with the mutable
`config[param]` threaded explicitly as `cur` and the captured
`original = config[param]` as `original`.  Per candidate `v`:
`if v == config[param]: continue`; otherwise `config[param] = v` and the
full build–solve–extract cycle runs (`runner v`; `Except.error` models a
Python exception escaping `resolver_e_salvar`, which this loop does not
catch, so it propagates with the config still set to `v`); an `"Optimal"`
status appends `(v, economia)`; finally `config[param] = original`. -/
def sensLoop (runner : ℚ → Except String RunResult) (original : ℚ) :
    List ℚ → ℚ → List (ℚ × ℚ) → Except (String × ℚ) (List (ℚ × ℚ) × ℚ)
  | [], cur, acc => .ok (acc.reverse, cur)
  | v :: vs, cur, acc =>
    if v = cur then sensLoop runner original vs cur acc
    else
      match runner v with
      | .error e => .error (e, v)
      | .ok res =>
        sensLoop runner original vs original
          (if res.status = "Optimal" then (v, res.economia) :: acc else acc)

/-- `analise_sensibilidade(config, data, param, values, ...)` reduced to the
state it reads and writes: the entry value of `config[param]`, the
candidate list, and the runner for one build–solve–extract cycle.  Returns
the collected `(value, economia)` summaries together with the final value
of `config[param]`; on an uncaught exception, the exception message with
the value `config[param]` held at that moment. -/
def analise_sensibilidade (runner : ℚ → Except String RunResult)
    (cfgParam : ℚ) (values : List ℚ) :
    Except (String × ℚ) (List (ℚ × ℚ) × ℚ) :=
  sensLoop runner cfgParam values cfgParam []

end Sens

/-- ObjectiveComposer form stated by the spec: one scalar objective as a
weighted sum of normalized terms, each term a tuple
`(weight, sign, raw_term, normalizer)` contributing
`weight * sign * (raw_term / normalizer)`.  This definition follows the
spec's words and is compared with `Cenario3.objetivo`, which is translated
from the source. -/
def composedObjectiveSpec (terms : List (ℚ × ℚ × ℚ × ℚ)) : ℚ :=
  (terms.map fun w => w.1 * w.2.1 * (w.2.2.1 / w.2.2.2)).sum

/-! ## Concrete instances used by counterexamples and witnesses -/

/-- Two residences, one hour, demands `(1, 9)`, generation `10`: the input
of claim C9 (even index: weight 5 and small demand; odd index: weight 1 and
large demand; generation equals total demand). -/
def c9Params : HeurParams :=
  { num_residencias := 2
    num_horas := 1
    demanda_residencias := fun i _ => if i = 0 then 1 else 9
    geracao_solar := fun _ => 10 }

/-- Two residences, one hour, demands `(1, 4)`, generation `5`: input on
which the priority-weighted heuristic over-allocates to residence 0. -/
def c1HeurParams : HeurParams :=
  { num_residencias := 2
    num_horas := 1
    demanda_residencias := fun i _ => if i = 0 then 1 else 4
    geracao_solar := fun _ => 5 }

/-- Two residences, one hour, zero demand everywhere, nonzero generation:
an input whose period-0 total demand is zero. -/
def c8Params : HeurParams :=
  { num_residencias := 2
    num_horas := 1
    demanda_residencias := fun _ _ => 0
    geracao_solar := fun _ => 3 }

/-- One residence, one hour, demand 10, generation 20, efficiency 1,
minimum service 5, hourly-flow limit 100, injection limit 0: a concrete
`cenario_2_mono_objetivo` instance. -/
def c2mParams : Cenario2M.Params :=
  { num_residencias := 1
    num_horas := 1
    demanda_residencias := fun _ _ => 10
    geracao_solar := fun _ => 20
    eficiencia_rede := fun _ => 1
    pesos_prioridade_c2 := fun _ => 1
    demanda_base_ajustada := 5
    demandas_minimas_residencias := fun _ => 5
    limite_fluxo_hora := 100
    limite_injecao_rede := fun _ => 0 }

/-- A feasible point of the `c2mParams` model whose grid draw exceeds the
uncovered demand: `x = 1`, `y = 1`, `u = 5`, `z = 0`. -/
def c2mAsg : Cenario2M.Assign :=
  { x := fun _ _ => 1
    y := fun _ _ => 1
    u := fun _ _ => 5
    z := fun _ => 0 }

/-- One residence, one hour, demand 10, generation 100, efficiency 1,
minimum service 10 (equal to the adjusted base), injection limit 0, unit
tariff: a concrete `cenario_3_multiobjetivo` instance. -/
def c3Params : Cenario3.Params :=
  { num_residencias := 1
    num_horas := 1
    demanda_residencias := fun _ _ => 10
    geracao_solar := fun _ => 100
    eficiencia_rede := fun _ => 1
    demanda_base_ajustada := 10
    demandas_minimas_residencias := fun _ => 10
    limite_injecao_rede := fun _ => 0
    tarifas_residencias := fun _ _ => 1 }

/-- A feasible point of the `c3Params` model allocating only half the
demand (`x = 1/2`) and over-drawing from the grid (`u = 7`). -/
def c3Asg : Cenario3.Assign :=
  { x := fun _ _ => 1/2
    u := fun _ _ => 7
    z := fun _ => 0
    v := fun _ => 1/2
    creditos := fun _ => 0 }

/-- Config for the all-zero `configurar_modelo_solar` instance: one
residence, one candidate unit, zero budget and `alpha = 0`. -/
def appCfgZero : AppModel.Config :=
  { N := 1
    M := 1
    B := 0
    r := 0
    r_rede := 0
    gamma := 0
    taxa_disponibilidade := 0
    custo_garantia_por_kw := 0
    alpha := 0
    max_units := 1 }

/-- All-zero data for the `appCfgZero` model. -/
def appDatZero : AppModel.Data :=
  { E_cons := fun _ _ => 0
    P := fun _ => 0
    c := fun _ => 0
    l := fun _ => 0
    l_dist := fun _ => 0
    k := fun _ _ => 0 }

/-- The all-zero feasible point of the `appCfgZero` model (allocation
fraction `a = 1 = 1/N` as forced by `Alocacao_Equitativa`). -/
def appAsgZero : AppModel.Assign :=
  { x := fun _ => 0
    E_eff := fun _ => 0
    m := fun _ _ => 0
    c := fun _ _ => 0
    r := fun _ _ => 0
    u := fun _ _ => 0
    C := fun _ _ => 0
    a := fun _ _ => 1
    E_alloc := fun _ _ => 0 }

/-- A nonzero totals dict standing for the values the Optimal branch of
`resolver_e_salvar` would have computed. -/
def appTotaisExemplo : AppModel.Totais :=
  { economia := fun _ => 123
    creditos := fun _ => 4
    creditos_usados := fun _ => 5
    energia_gerada := fun _ => 6
    energia_consumida := fun _ => 7
    uso_rede := fun _ => 8
    custo_operacional := fun _ => 9 }

/-- Demand matrix for the app2 counterexample: every consumer demands
`0.8` at hour 11 and nothing elsewhere (within the `uniform(0.3, 0.8)`
daytime band the generator uses). -/
def app2DemSimples : ℕ → ℕ → ℚ := fun _ t => if t = 11 then 4/5 else 0

/-- A feasible point of the app2 `simples` model on `app2DemSimples`:
everyone allocated at hour 11, credits `3.2` each at hour 11 (total 32,
exactly the injection limit), no grid draw. -/
def app2AsgSimples : App2.Assign :=
  { alocacao := fun _ t => if t = 11 then 1 else 0
    creditos := fun _ t => if t = 11 then 16/5 else 0
    energia_rede := fun _ _ => 0 }

/-- Demand matrix for the app2 `prioritario` witness: unit demand at hours
8–12, nothing elsewhere. -/
def app2DemPrior : ℕ → ℕ → ℚ := fun _ t => if 8 ≤ t ∧ t ≤ 12 then 1 else 0

/-- A feasible point of the app2 `prioritario` model on `app2DemPrior`:
everyone fully allocated at hours 8–12, no credits, no grid draw. -/
def app2AsgPrior : App2.Assign :=
  { alocacao := fun _ t => if 8 ≤ t ∧ t ≤ 12 then 1 else 0
    creditos := fun _ _ => 0
    energia_rede := fun _ _ => 0 }

/-- The first five consumers as the priority list (the source derives the
list from seeded-random priorities; its identity is immaterial here). -/
def app2Prioritarios : List ℕ := [0, 1, 2, 3, 4]

/-- A runner whose every cycle is Optimal with saving equal to the swept
value. -/
def okRunner : ℚ → Except String Sens.RunResult :=
  fun v => .ok { status := "Optimal", economia := v }

/-- A runner that raises on the candidate `4/5` and is Optimal elsewhere. -/
def failRunner : ℚ → Except String Sens.RunResult :=
  fun v => if v = 4/5 then .error "falha na execucao" else
    .ok { status := "Optimal", economia := v }

end SolarAlloc

/-! ## Theorems -/

namespace SolarAlloc

theorem sumR_eq_finset_sum (n : ℕ) (f : ℕ → ℚ) :
    sumR n f = ∑ i in Finset.range n, f i := by
  induction n with
  | zero => simp [sumR]
  | succ n ih => rw [Finset.sum_range_succ, sumR, ih]

theorem sumR_nonneg {n : ℕ} {f : ℕ → ℚ} (h : ∀ i < n, 0 ≤ f i) :
    0 ≤ sumR n f := by
  rw [sumR_eq_finset_sum]
  exact Finset.sum_nonneg fun i hi => h i (Finset.mem_range.mp hi)

theorem sumR_le_sumR {n : ℕ} {f g : ℕ → ℚ} (h : ∀ i < n, f i ≤ g i) :
    sumR n f ≤ sumR n g := by
  rw [sumR_eq_finset_sum, sumR_eq_finset_sum]
  exact Finset.sum_le_sum fun i hi => h i (Finset.mem_range.mp hi)

theorem sumR_congr {n : ℕ} {f g : ℕ → ℚ} (h : ∀ i < n, f i = g i) :
    sumR n f = sumR n g := by
  rw [sumR_eq_finset_sum, sumR_eq_finset_sum]
  exact Finset.sum_congr rfl fun i hi => h i (Finset.mem_range.mp hi)

theorem sumR_eq_zero_iff {n : ℕ} {f : ℕ → ℚ} (h : ∀ i < n, 0 ≤ f i) :
    sumR n f = 0 ↔ ∀ i < n, f i = 0 := by
  rw [sumR_eq_finset_sum]
  rw [Finset.sum_eq_zero_iff_of_nonneg fun i hi => h i (Finset.mem_range.mp hi)]
  constructor
  · intro hz i hi
    exact hz i (Finset.mem_range.mpr hi)
  · intro hz i hi
    exact hz i (Finset.mem_range.mp hi)

/-- The concrete assignment `c2mAsg` satisfies every constraint of the
`cenario_2_mono_objetivo` model on `c2mParams`. -/
theorem c2m_inst_feasible : Cenario2M.Feasible c2mParams c2mAsg := by
  simp only [Cenario2M.Feasible, c2mParams, c2mAsg, Nat.lt_one_iff, forall_eq]
  norm_num [sumR]

/-- The concrete assignment `c3Asg` satisfies every constraint of the
`cenario_3_multiobjetivo` model on `c3Params`. -/
theorem c3_inst_feasible : Cenario3.Feasible c3Params c3Asg := by
  simp only [Cenario3.Feasible, Cenario3.media_alocado, Cenario3.total_alocado,
    c3Params, c3Asg, Nat.lt_one_iff, forall_eq]
  norm_num [sumR]

/-- The all-zero assignment satisfies every constraint of the
`Consorcio_Solar_12Meses` model on the all-zero one-residence config. -/
theorem app_zero_feasible :
    AppModel.Feasible appCfgZero appDatZero appAsgZero := by
  simp only [AppModel.Feasible, AppModel.T, appCfgZero, appDatZero, appAsgZero,
    Nat.lt_one_iff, forall_eq]
  norm_num [sumR]

/-- The `app2AsgSimples` point satisfies every constraint of the app2
`simples` model on the `app2DemSimples` demand matrix. -/
theorem app2_simples_feasible :
    App2.Feasible app2DemSimples [] "simples" app2AsgSimples := by
  refine ⟨?_, ?_, ?_, ?_, ?_, ?_⟩
  · intro i hi t ht
    by_cases h : t = 11 <;>
      norm_num [app2AsgSimples, h]
  · intro t ht
    simp only [App2.PERIODOS_DIA] at ht
    interval_cases t <;>
      norm_num [App2.GERACAO_SOLAR, App2.PERDAS_REDE, App2.NUMERO_CONSUMIDORES,
        app2DemSimples, app2AsgSimples, sumR]
  · intro i hi t ht
    simp only [App2.PERIODOS_DIA] at ht
    interval_cases t <;>
      norm_num [App2.GERACAO_SOLAR, app2DemSimples, app2AsgSimples]
  · intro t ht
    simp only [App2.PERIODOS_DIA] at ht
    interval_cases t <;>
      norm_num [App2.GERACAO_SOLAR, App2.LIMITE_INJECAO, App2.NUMERO_CONSUMIDORES,
        app2AsgSimples, sumR]
  · intro i hi t ht
    by_cases h : t = 11 <;>
      norm_num [app2DemSimples, app2AsgSimples, h]
  · intro h
    exact absurd h (by decide)

/-- The `app2AsgPrior` point satisfies every constraint of the app2
`prioritario` model on the `app2DemPrior` demand matrix, including the
minimum cumulative service of the priority consumers. -/
theorem app2_prior_feasible :
    App2.Feasible app2DemPrior app2Prioritarios "prioritario" app2AsgPrior := by
  refine ⟨?_, ?_, ?_, ?_, ?_, ?_⟩
  · intro i hi t ht
    by_cases h : 8 ≤ t ∧ t ≤ 12 <;>
      norm_num [app2AsgPrior, h]
  · intro t ht
    simp only [App2.PERIODOS_DIA] at ht
    interval_cases t <;>
      norm_num [App2.GERACAO_SOLAR, App2.PERDAS_REDE, App2.NUMERO_CONSUMIDORES,
        app2DemPrior, app2AsgPrior, sumR]
  · intro i hi t ht
    simp only [App2.PERIODOS_DIA] at ht
    interval_cases t <;>
      norm_num [App2.GERACAO_SOLAR, app2DemPrior, app2AsgPrior]
  · intro t ht
    simp only [App2.PERIODOS_DIA] at ht
    interval_cases t <;>
      norm_num [App2.GERACAO_SOLAR, App2.LIMITE_INJECAO, App2.NUMERO_CONSUMIDORES,
        app2AsgPrior, sumR]
  · intro i hi t ht
    by_cases h : 8 ≤ t ∧ t ≤ 12 <;>
      norm_num [app2DemPrior, app2AsgPrior, h]
  · intro _ i _
    norm_num [App2.DEMANDA_MINIMA_PRIORITARIOS, App2.PERIODOS_DIA,
      app2DemPrior, app2AsgPrior, sumR]

/-- C9: there exists an input with non-negative demands — two units, the
even-indexed one with weight 5.0 and small demand (1), the odd-indexed one
with weight 1.0 and large demand (9), generation 10 equal to the total
demand — on which the priority-weighted heuristic
`cenario_2_priorizacao_tarifa_social` allocates unit 0 strictly more than
its demand in the same period, so that its allocation plus grid draw
strictly exceeds its demand. -/
theorem C9_heuristic_overallocates :
    (∀ i < c9Params.num_residencias, ∀ t < c9Params.num_horas,
      0 ≤ c9Params.demanda_residencias i t) ∧
    c9Params.demanda_residencias 0 0 < Cenario2H.aloc c9Params 0 0 ∧
    c9Params.demanda_residencias 0 0 <
      Cenario2H.aloc c9Params 0 0 + Cenario2H.rede c9Params 0 0 := by
  refine ⟨?_, ?_, ?_⟩
  · intro i _ t _
    simp only [c9Params]
    split_ifs <;> norm_num
  all_goals
    norm_num [c9Params, Cenario2H.aloc, Cenario2H.rede,
      Cenario2H.total_demanda_ponderada, Cenario2H.demanda_ponderada,
      Cenario2H.pesos_prioridade, Cenario1.total_demanda, sumR]

/-- C8: for every heuristic input whose demands in period `t` are
non-negative and whose total demand in `t` is zero, both non-solver
variants keep the zero allocation for every unit in that period (the
division guards `total_demanda > 0` / `total_demanda_ponderada > 0` fail,
so no division is performed) and each unit's grid draw equals its remaining
demand. -/
theorem C8_zero_total_demand (p : HeurParams) (t : ℕ)
    (hd : ∀ i < p.num_residencias, 0 ≤ p.demanda_residencias i t)
    (h0 : Cenario1.total_demanda p t = 0) :
    ∀ i < p.num_residencias,
      Cenario1.aloc p i t = 0 ∧
      Cenario1.rede p i t = p.demanda_residencias i t ∧
      Cenario2H.aloc p i t = 0 ∧
      Cenario2H.rede p i t = p.demanda_residencias i t := by
  have hz : ∀ i < p.num_residencias, p.demanda_residencias i t = 0 :=
    (sumR_eq_zero_iff hd).mp h0
  have hp : Cenario2H.total_demanda_ponderada p t = 0 := by
    unfold Cenario2H.total_demanda_ponderada
    have : sumR p.num_residencias (fun i => Cenario2H.demanda_ponderada p i t) =
        sumR p.num_residencias (fun _ => 0) := by
      apply sumR_congr
      intro i hi
      unfold Cenario2H.demanda_ponderada
      rw [hz i hi, zero_mul]
    rw [this, sumR_eq_finset_sum]
    simp
  intro i hi
  have hdi := hz i hi
  have ha1 : Cenario1.aloc p i t = 0 := by
    unfold Cenario1.aloc
    rw [h0]
    norm_num
  have ha2 : Cenario2H.aloc p i t = 0 := by
    unfold Cenario2H.aloc
    rw [hp]
    norm_num
  refine ⟨ha1, ?_, ha2, ?_⟩
  · unfold Cenario1.rede
    rw [ha1, hdi]
    norm_num
  · unfold Cenario2H.rede
    rw [ha2, hdi]
    norm_num

/-- Witness for C8 at a concrete input: two residences, zero demand,
generation 3; the guards short-circuit and residence 0 gets zero allocation
and zero grid draw in period 0. -/
theorem C8_zero_total_demand_witness :
    ((∀ i < c8Params.num_residencias, 0 ≤ c8Params.demanda_residencias i 0) ∧
      Cenario1.total_demanda c8Params 0 = 0) ∧
    (Cenario1.aloc c8Params 0 0 = 0 ∧
      Cenario1.rede c8Params 0 0 = c8Params.demanda_residencias 0 0 ∧
      Cenario2H.aloc c8Params 0 0 = 0 ∧
      Cenario2H.rede c8Params 0 0 = c8Params.demanda_residencias 0 0) :=
  ⟨⟨by norm_num [c8Params], by norm_num [Cenario1.total_demanda, c8Params, sumR]⟩,
   C8_zero_total_demand c8Params 0 (by norm_num [c8Params])
     (by norm_num [Cenario1.total_demanda, c8Params, sumR]) 0
     (by norm_num [c8Params])⟩

/-- C5: the `cenario_3_multiobjetivo` objective equals the spec's
ObjectiveComposer form `Σ_k weight_k * sign_k * (raw_k / normalizer_k)`
with exactly the four canonical terms: (a) priority-weighted allocated
energy over total demand, maximized; (b) the equity-deviation total over
`num_residencias * np.mean(demanda)`, minimized; (c) the grid-draw total
over total demand, minimized; (d) the tariff-weighted grid cost over the
tariff-weighted demand, minimized; with the policy weights
`[0.7, 0.05, 0.1, 0.15]`. -/
theorem C5_objective_composition (p : Cenario3.Params) (s : Cenario3.Assign) :
    Cenario3.objetivo p s =
      composedObjectiveSpec
        [(7/10, 1,
          sumR p.num_residencias fun i => sumR p.num_horas fun t =>
            Cenario3.pesos_prioridade i * s.x i t * p.demanda_residencias i t,
          sumR p.num_residencias fun i => sumR p.num_horas fun t =>
            p.demanda_residencias i t),
         (5/100, -1,
          sumR p.num_residencias fun i => s.v i,
          (p.num_residencias : ℚ) * Cenario3.mean_demanda p),
         (1/10, -1,
          sumR p.num_residencias fun i => sumR p.num_horas fun t => s.u i t,
          sumR p.num_residencias fun i => sumR p.num_horas fun t =>
            p.demanda_residencias i t),
         (15/100, -1,
          sumR p.num_residencias fun i => sumR p.num_horas fun t =>
            p.tarifas_residencias i t * s.u i t,
          sumR p.num_residencias fun i => sumR p.num_horas fun t =>
            p.tarifas_residencias i t * p.demanda_residencias i t)] := by
  simp only [Cenario3.objetivo, composedObjectiveSpec,
    Cenario3.pesos_objetivos_c3, Cenario3.Z_1, Cenario3.Z_2, Cenario3.Z_3,
    Cenario3.Z_4, List.map_cons, List.map_nil, List.sum_cons, List.sum_nil,
    List.getD_cons_zero, List.getD_cons_succ]
  ring

/-- C2: in the multi-month consortium model (`configurar_modelo_solar`),
every feasible point satisfies the credit-ledger law for every residence:
initial stock zero, stock recurrence
`C[i,t+1] == C[i,t] + c[i,t] - u[i,t]` for every month, usage bounded by
the entering stock (`u[i,t] <= C[i,t]`), and non-negative stock at every
point `0..12`. -/
theorem C2_credit_ledger (cfg : AppModel.Config) (dat : AppModel.Data)
    (s : AppModel.Assign) (h : AppModel.Feasible cfg dat s) :
    ∀ i < cfg.N,
      s.C i 0 = 0 ∧
      (∀ t < AppModel.T,
        s.C i (t + 1) = s.C i t + s.c i t - s.u i t ∧ s.u i t ≤ s.C i t) ∧
      (∀ t ≤ AppModel.T, 0 ≤ s.C i t) := by
  obtain ⟨h1, h2, h3, h4, h5, h6, h7, h8⟩ := h
  intro i hi
  refine ⟨h8 i hi, ?_, ?_⟩
  · intro t ht
    obtain ⟨_, _, _, _, _, hres⟩ := h5 t ht
    obtain ⟨_, _, _, _, _, _, _, hrec, huse, _⟩ := hres i hi
    exact ⟨hrec, huse⟩
  · intro t ht
    exact h4 i hi t (by omega)

/-- Witness for C2 at the all-zero one-residence instance of the
consortium model. -/
theorem C2_credit_ledger_witness :
    AppModel.Feasible appCfgZero appDatZero appAsgZero ∧
    (appAsgZero.C 0 0 = 0 ∧
      (∀ t < AppModel.T,
        appAsgZero.C 0 (t + 1) =
            appAsgZero.C 0 t + appAsgZero.c 0 t - appAsgZero.u 0 t ∧
          appAsgZero.u 0 t ≤ appAsgZero.C 0 t) ∧
      (∀ t ≤ AppModel.T, 0 ≤ appAsgZero.C 0 t)) :=
  ⟨app_zero_feasible,
   C2_credit_ledger appCfgZero appDatZero appAsgZero app_zero_feasible 0
     (by norm_num [appCfgZero])⟩

/-- C1 fails as stated: not every policy variant's produced solution
satisfies the balance equality `demand = direct + credit_used + grid_draw`.
The priority-weighted heuristic over-covers unit 0 on the non-negative
input `c1HeurParams` (`aloc + rede ≠ demand`), and the exhibited feasible
points of the `cenario_2_mono_objetivo` and `cenario_3_multiobjetivo`
models over-cover residence 0, because those models only enforce the
one-sided inequality `x*d + u >= d` (credit-relaxed in cenário 3). -/
theorem C1_balance_counterexample :
    ((∀ i < c1HeurParams.num_residencias, ∀ t < c1HeurParams.num_horas,
        0 ≤ c1HeurParams.demanda_residencias i t) ∧
      Cenario2H.aloc c1HeurParams 0 0 + Cenario2H.rede c1HeurParams 0 0 ≠
        c1HeurParams.demanda_residencias 0 0) ∧
    (Cenario2M.Feasible c2mParams c2mAsg ∧
      Cenario2M.aloc c2mParams c2mAsg 0 0 + Cenario2M.rede c2mAsg 0 0 ≠
        c2mParams.demanda_residencias 0 0) ∧
    (Cenario3.Feasible c3Params c3Asg ∧
      Cenario3.aloc c3Params c3Asg 0 0 + Cenario3.rede c3Asg 0 0 ≠
        c3Params.demanda_residencias 0 0) := by
  refine ⟨⟨?_, ?_⟩, ⟨c2m_inst_feasible, ?_⟩, ⟨c3_inst_feasible, ?_⟩⟩
  · intro i _ t _
    simp only [c1HeurParams]
    split_ifs <;> norm_num
  · norm_num [c1HeurParams, Cenario2H.aloc, Cenario2H.rede,
      Cenario2H.total_demanda_ponderada, Cenario2H.demanda_ponderada,
      Cenario2H.pesos_prioridade, Cenario1.total_demanda, sumR]
  · norm_num [c2mParams, c2mAsg, Cenario2M.aloc, Cenario2M.rede]
  · norm_num [c3Params, c3Asg, Cenario3.aloc, Cenario3.rede]

/-- C1 amended: the balance holds as a strict equality exactly where the
code enforces it — in the proportional heuristic
`cenario_1_proporcional_simples` every unit/period with non-negative demand
satisfies `aloc + rede = demand` for any input, and in the
`configurar_modelo_solar` model the `Demanda_Coberta` constraint makes
every feasible point satisfy `E_cons[i][t] == m + r + u`; the
cenário-2/cenário-3 variants enforce only a one-sided covering
inequality. -/
theorem C1_balance_amended :
    (∀ (p : HeurParams) (i t : ℕ), 0 ≤ p.demanda_residencias i t →
      Cenario1.aloc p i t + Cenario1.rede p i t =
        p.demanda_residencias i t) ∧
    (∀ (cfg : AppModel.Config) (dat : AppModel.Data) (s : AppModel.Assign),
      AppModel.Feasible cfg dat s →
      ∀ i < cfg.N, ∀ t < AppModel.T,
        dat.E_cons i t = s.m i t + s.r i t + s.u i t) := by
  constructor
  · intro p i t hd
    have hle : Cenario1.aloc p i t ≤ p.demanda_residencias i t := by
      unfold Cenario1.aloc
      split_ifs with h
      · calc p.demanda_residencias i t / Cenario1.total_demanda p t *
              min (p.geracao_solar t) (Cenario1.total_demanda p t) ≤
              p.demanda_residencias i t / Cenario1.total_demanda p t *
                Cenario1.total_demanda p t := by
              apply mul_le_mul_of_nonneg_left (min_le_right _ _)
              exact div_nonneg hd (le_of_lt h)
          _ = p.demanda_residencias i t := div_mul_cancel₀ _ (ne_of_gt h)
      · exact hd
    unfold Cenario1.rede
    rw [max_eq_right (by linarith)]
    ring
  · intro cfg dat s h i hi t ht
    obtain ⟨h1, h2, h3, h4, h5, h6, h7, h8⟩ := h
    obtain ⟨_, _, _, _, _, hres⟩ := h5 t ht
    obtain ⟨_, _, _, _, _, _, hbal, _⟩ := hres i hi
    exact hbal

/-- Witness for the amended C1: the heuristic balance equality at
residence 0, period 0 of `c1HeurParams`, and the model balance equality at
the all-zero instance of the consortium model. -/
theorem C1_balance_witness :
    (0 ≤ c1HeurParams.demanda_residencias 0 0 ∧
      Cenario1.aloc c1HeurParams 0 0 + Cenario1.rede c1HeurParams 0 0 =
        c1HeurParams.demanda_residencias 0 0) ∧
    (AppModel.Feasible appCfgZero appDatZero appAsgZero ∧
      appDatZero.E_cons 0 0 =
        appAsgZero.m 0 0 + appAsgZero.r 0 0 + appAsgZero.u 0 0) :=
  ⟨⟨by norm_num [c1HeurParams],
    C1_balance_amended.1 c1HeurParams 0 0 (by norm_num [c1HeurParams])⟩,
   ⟨app_zero_feasible,
    C1_balance_amended.2 appCfgZero appDatZero appAsgZero app_zero_feasible 0
      (by norm_num [appCfgZero]) 0 (by norm_num [AppModel.T])⟩⟩

/-- C3 fails as stated for the app2 optimization variant
(`criar_modelo_otimizacao`): its model bounds allocated demand by effective
generation and total credits by the injection limit separately, so a
produced solution can have `Σ_i (direct[i,t] + generated[i,t])` exceed
`generation[t] * (1 - PERDAS_REDE)`.  The exhibited point is feasible for
the `simples` model on demand `0.8` per consumer at hour 11, where
allocated demand 8 plus credits 32 equals 40 > 37.04. -/
theorem C3_capacity_counterexample :
    App2.Feasible app2DemSimples [] "simples" app2AsgSimples ∧
    App2.GERACAO_SOLAR 11 * (1 - App2.PERDAS_REDE) <
      sumR App2.NUMERO_CONSUMIDORES
        (fun i => app2DemSimples i 11 * app2AsgSimples.alocacao i 11 +
          app2AsgSimples.creditos i 11) :=
  ⟨app2_simples_feasible,
   by norm_num [App2.GERACAO_SOLAR, App2.PERDAS_REDE,
     App2.NUMERO_CONSUMIDORES, app2DemSimples, app2AsgSimples, sumR]⟩

/-- C3 amended: the per-period capacity inequality
`Σ_i direct[i,t] + surplus[t] <= generation[t] * efficiency[t]` is enforced
as a literal constraint in the `cenario_2_mono_objetivo` and
`cenario_3_multiobjetivo` models, and in the consortium model every
feasible point satisfies `Σ_i (m[i,t] + c[i,t]) <= E_eff[t]` whenever the
distribution losses are non-negative; the app2 model does not enforce the
combined bound. -/
theorem C3_capacity_amended :
    (∀ (p : Cenario2M.Params) (s : Cenario2M.Assign),
      Cenario2M.Feasible p s →
      ∀ t < p.num_horas,
        sumR p.num_residencias
            (fun i => s.x i t * p.demanda_residencias i t) + s.z t ≤
          p.eficiencia_rede t * p.geracao_solar t) ∧
    (∀ (p : Cenario3.Params) (s : Cenario3.Assign),
      Cenario3.Feasible p s →
      ∀ t < p.num_horas,
        sumR p.num_residencias
            (fun i => s.x i t * p.demanda_residencias i t) + s.z t ≤
          p.eficiencia_rede t * p.geracao_solar t) ∧
    (∀ (cfg : AppModel.Config) (dat : AppModel.Data) (s : AppModel.Assign),
      AppModel.Feasible cfg dat s → (∀ i < cfg.N, 0 ≤ dat.l_dist i) →
      ∀ t < AppModel.T,
        sumR cfg.N (fun i => s.m i t + s.c i t) ≤ s.E_eff t) := by
  refine ⟨?_, ?_, ?_⟩
  · intro p s h t ht
    obtain ⟨_, _, h3, _⟩ := h
    exact (h3 t ht).2.2.1
  · intro p s h t ht
    obtain ⟨_, _, _, h4, _⟩ := h
    exact (h4 t ht).2.2.1
  · intro cfg dat s h hl t ht
    obtain ⟨h1, h2, h3, h4, h5, h6, h7, h8⟩ := h
    obtain ⟨_, _, _, _, hEsum, hres⟩ := h5 t ht
    have step1 : sumR cfg.N (fun i => s.m i t + s.c i t) =
        sumR cfg.N (fun i => (1 - dat.l_dist i) * s.E_alloc i t) := by
      apply sumR_congr
      intro i hi
      obtain ⟨_, _, _, _, _, hc, _⟩ := hres i hi
      rw [hc]
      ring
    have step2 : sumR cfg.N (fun i => (1 - dat.l_dist i) * s.E_alloc i t) ≤
        sumR cfg.N (fun i => s.E_alloc i t) := by
      apply sumR_le_sumR
      intro i hi
      obtain ⟨_, _, _, _, _, _, hEa⟩ := h3 i hi t ht
      have h1l : (1 : ℚ) - dat.l_dist i ≤ 1 := by linarith [hl i hi]
      calc (1 - dat.l_dist i) * s.E_alloc i t ≤ 1 * s.E_alloc i t :=
            mul_le_mul_of_nonneg_right h1l hEa
        _ = s.E_alloc i t := one_mul _
    rw [step1, ← hEsum]
    exact step2

/-- Witness for the amended C3 at period 0 of the three concrete feasible
instances. -/
theorem C3_capacity_witness :
    (Cenario2M.Feasible c2mParams c2mAsg ∧
      sumR c2mParams.num_residencias
          (fun i => c2mAsg.x i 0 * c2mParams.demanda_residencias i 0) +
          c2mAsg.z 0 ≤
        c2mParams.eficiencia_rede 0 * c2mParams.geracao_solar 0) ∧
    (Cenario3.Feasible c3Params c3Asg ∧
      sumR c3Params.num_residencias
          (fun i => c3Asg.x i 0 * c3Params.demanda_residencias i 0) +
          c3Asg.z 0 ≤
        c3Params.eficiencia_rede 0 * c3Params.geracao_solar 0) ∧
    (AppModel.Feasible appCfgZero appDatZero appAsgZero ∧
      (∀ i < appCfgZero.N, 0 ≤ appDatZero.l_dist i) ∧
      sumR appCfgZero.N (fun i => appAsgZero.m i 0 + appAsgZero.c i 0) ≤
        appAsgZero.E_eff 0) :=
  ⟨⟨c2m_inst_feasible,
    C3_capacity_amended.1 c2mParams c2mAsg c2m_inst_feasible 0
      (by norm_num [c2mParams])⟩,
   ⟨c3_inst_feasible,
    C3_capacity_amended.2.1 c3Params c3Asg c3_inst_feasible 0
      (by norm_num [c3Params])⟩,
   ⟨app_zero_feasible, by norm_num [appDatZero],
    C3_capacity_amended.2.2 appCfgZero appDatZero appAsgZero app_zero_feasible
      (by norm_num [appDatZero]) 0 (by norm_num [AppModel.T])⟩⟩

/-- C4 fails as stated for `resolver_e_salvar` (src/app.py): on the
non-Optimal status `"Infeasible"` the function returns normally — no
exception — and the returned result carries the zero-filled totals dict in
place of a solution. -/
theorem C4_status_counterexample :
    AppModel.resolver_e_salvar "Infeasible" appTotaisExemplo =
      .ok { status := "Infeasible", totais := AppModel.zeroTotais } := by
  rfl

/-- C4 amended: `cenario_2_mono_objetivo` and `cenario_3_multiobjetivo`
raise (`ValueError`) on every solver status other than 1 and never return
result matrices there; `resolver_e_salvar` in src/app.py instead returns,
for every status other than `"Optimal"`, a result structure whose totals
are the zero-filled initial dict, with the status recorded. -/
theorem C4_status_amended :
    (∀ st : ℤ, st ≠ 1 →
      ∀ (p : Cenario2M.Params) (s : Cenario2M.Assign),
        Cenario2M.run p st s = .error "Solver falhou para o Cenário 2") ∧
    (∀ st : ℤ, st ≠ 1 →
      ∀ (p : Cenario3.Params) (s : Cenario3.Assign),
        Cenario3.run p st s = .error "Solver falhou para o Cenário 3") ∧
    (∀ st : String, st ≠ "Optimal" →
      ∀ f : AppModel.Totais,
        AppModel.resolver_e_salvar st f =
          .ok { status := st, totais := AppModel.zeroTotais }) := by
  refine ⟨?_, ?_, ?_⟩
  · intro st hst p s
    simp [Cenario2M.run, hst]
  · intro st hst p s
    simp [Cenario3.run, hst]
  · intro st hst f
    simp [AppModel.resolver_e_salvar, hst]

/-- Witness for the amended C4 at status 0 (solver not-solved) and status
`"Infeasible"`. -/
theorem C4_status_witness :
    ((0 : ℤ) ≠ 1 ∧
      Cenario2M.run c2mParams 0 c2mAsg =
        .error "Solver falhou para o Cenário 2") ∧
    ((0 : ℤ) ≠ 1 ∧
      Cenario3.run c3Params 0 c3Asg =
        .error "Solver falhou para o Cenário 3") ∧
    (("Infeasible" : String) ≠ "Optimal" ∧
      AppModel.resolver_e_salvar "Infeasible" appTotaisExemplo =
        .ok { status := "Infeasible", totais := AppModel.zeroTotais }) :=
  ⟨⟨by decide, C4_status_amended.1 0 (by decide) c2mParams c2mAsg⟩,
   ⟨by decide, C4_status_amended.2.1 0 (by decide) c3Params c3Asg⟩,
   ⟨by decide, C4_status_amended.2.2 "Infeasible" (by decide) appTotaisExemplo⟩⟩

/-- C7 fails as stated for `cenario_3_multiobjetivo`: its model only
requires `Σ_t direct[i,t] >= 0.5 * min(demanda_base_ajustada,
demandas_minimas[i])`, so the exhibited feasible point allocates residence
0 a horizon total of 5, strictly below its minimum service requirement
of 10. -/
theorem C7_minimum_service_counterexample :
    Cenario3.Feasible c3Params c3Asg ∧
    sumR c3Params.num_horas
        (fun t => c3Asg.x 0 t * c3Params.demanda_residencias 0 t) <
      c3Params.demandas_minimas_residencias 0 :=
  ⟨c3_inst_feasible, by norm_num [c3Params, c3Asg, sumR]⟩

/-- C7 amended: `cenario_2_mono_objetivo` enforces
`Σ_t x[i,t]*d[i,t] >= demandas_minimas_residencias[i]` for every residence,
and app2's `prioritario` model enforces
`Σ_t d[i,t]*alocacao[i,t] >= DEMANDA_MINIMA_PRIORITARIOS` for every
designated priority consumer; `cenario_3_multiobjetivo` enforces only the
weaker `Σ_t x[i,t]*d[i,t] >= 0.5 * min(demanda_base_ajustada,
demandas_minimas[i])`. -/
theorem C7_minimum_service_amended :
    (∀ (p : Cenario2M.Params) (s : Cenario2M.Assign),
      Cenario2M.Feasible p s →
      ∀ i < p.num_residencias,
        p.demandas_minimas_residencias i ≤
          sumR p.num_horas (fun t => s.x i t * p.demanda_residencias i t)) ∧
    (∀ (p : Cenario3.Params) (s : Cenario3.Assign),
      Cenario3.Feasible p s →
      ∀ i < p.num_residencias,
        min p.demanda_base_ajustada (p.demandas_minimas_residencias i) *
            (1/2) ≤
          sumR p.num_horas (fun t => s.x i t * p.demanda_residencias i t)) ∧
    (∀ (demanda : ℕ → ℕ → ℚ) (prios : List ℕ) (s : App2.Assign),
      App2.Feasible demanda prios "prioritario" s →
      ∀ i ∈ prios,
        App2.DEMANDA_MINIMA_PRIORITARIOS ≤
          sumR App2.PERIODOS_DIA (fun t => demanda i t * s.alocacao i t)) := by
  refine ⟨?_, ?_, ?_⟩
  · intro p s h i hi
    obtain ⟨_, _, _, h4⟩ := h
    exact (h4 i hi).2.1
  · intro p s h i hi
    obtain ⟨_, _, _, _, h5, _⟩ := h
    exact (h5 i hi).1
  · intro demanda prios s h i hi
    obtain ⟨_, _, _, _, _, h6⟩ := h
    exact h6 rfl i hi

/-- Witness for the amended C7 at the three concrete feasible instances:
residence 0 of the cenário-2 model receives 10 >= 5, residence 0 of the
cenário-3 model receives 5 >= 5 = 0.5*min(10,10), and priority consumer 0
of the app2 model receives 5 >= 5. -/
theorem C7_minimum_service_witness :
    (Cenario2M.Feasible c2mParams c2mAsg ∧
      c2mParams.demandas_minimas_residencias 0 ≤
        sumR c2mParams.num_horas
          (fun t => c2mAsg.x 0 t * c2mParams.demanda_residencias 0 t)) ∧
    (Cenario3.Feasible c3Params c3Asg ∧
      min c3Params.demanda_base_ajustada
          (c3Params.demandas_minimas_residencias 0) * (1/2) ≤
        sumR c3Params.num_horas
          (fun t => c3Asg.x 0 t * c3Params.demanda_residencias 0 t)) ∧
    (App2.Feasible app2DemPrior app2Prioritarios "prioritario" app2AsgPrior ∧
      App2.DEMANDA_MINIMA_PRIORITARIOS ≤
        sumR App2.PERIODOS_DIA
          (fun t => app2DemPrior 0 t * app2AsgPrior.alocacao 0 t)) :=
  ⟨⟨c2m_inst_feasible,
    C7_minimum_service_amended.1 c2mParams c2mAsg c2m_inst_feasible 0
      (by norm_num [c2mParams])⟩,
   ⟨c3_inst_feasible,
    C7_minimum_service_amended.2.1 c3Params c3Asg c3_inst_feasible 0
      (by norm_num [c3Params])⟩,
   ⟨app2_prior_feasible,
    C7_minimum_service_amended.2.2 app2DemPrior app2Prioritarios app2AsgPrior
      app2_prior_feasible 0 (by norm_num [app2Prioritarios])⟩⟩

/-- On a runner whose every cycle returns (no exception), the sweep loop
collects exactly the candidates that differ from the entry configuration
value and whose run status is Optimal, and hands the configuration back at
its entry value. -/
theorem sensLoop_total_runner (run : ℚ → Sens.RunResult) (cfg : ℚ)
    (vs : List ℚ) :
    ∀ acc : List (ℚ × ℚ),
      Sens.sensLoop (fun v => .ok (run v)) cfg vs cfg acc =
        .ok ((acc.reverse ++
          ((vs.filter fun v => decide (v ≠ cfg) &&
              decide ((run v).status = "Optimal")).map
            fun v => (v, (run v).economia))), cfg) := by
  induction vs with
  | nil =>
    intro acc
    simp [Sens.sensLoop]
  | cons v vs ih =>
    intro acc
    by_cases hv : v = cfg
    · simp [Sens.sensLoop, hv, List.filter_cons, ih]
    · by_cases hs : (run v).status = "Optimal"
      · simp [Sens.sensLoop, hv, hs, List.filter_cons, ih]
      · simp [Sens.sensLoop, hv, hs, List.filter_cons, ih]

/-- Whatever the runner does, an `.ok` return of the sweep loop carries the
entry configuration value as the final configuration state. -/
theorem sensLoop_restores_config (runner : ℚ → Except String Sens.RunResult)
    (orig : ℚ) (vs : List ℚ) :
    ∀ (acc : List (ℚ × ℚ)) (res : List (ℚ × ℚ) × ℚ),
      Sens.sensLoop runner orig vs orig acc = .ok res → res.2 = orig := by
  induction vs with
  | nil =>
    intro acc res h
    simp only [Sens.sensLoop, Except.ok.injEq] at h
    rw [← h]
  | cons v vs ih =>
    intro acc res h
    rw [Sens.sensLoop] at h
    by_cases hv : v = orig
    · rw [if_pos hv] at h
      exact ih acc res h
    · rw [if_neg hv] at h
      cases hr : runner v with
      | error e =>
        rw [hr] at h
        exact absurd h (by simp)
      | ok r =>
        rw [hr] at h
        exact ih _ res h

/-- C6 fails as stated: a candidate equal to the current configuration
value is skipped — no build–solve–extract cycle runs and no summary is
collected for it even though the runner would report Optimal — and an
exception at one candidate aborts the sweep, so that a later candidate
(here 0.9) is never run. -/
theorem C6_sweep_counterexample :
    Sens.analise_sensibilidade okRunner (85/100) [85/100] =
      .ok ([], 85/100) ∧
    Sens.analise_sensibilidade failRunner (85/100) [4/5, 9/10] =
      .error ("falha na execucao", 4/5) := by
  constructor <;>
    norm_num [Sens.analise_sensibilidade, Sens.sensLoop, okRunner, failRunner]

/-- C6 amended: for every candidate value distinct from the entry
configuration value the sweep runs one full cycle with exactly that value
substituted and collects the `(value, annual saving)` summary exactly when
the status is Optimal (a non-Optimal candidate is recorded nowhere but does
not abort the sweep), restoring the configuration afterwards; a candidate
equal to the entry value is skipped without a run, and an uncaught
exception at one candidate aborts the remaining candidates. -/
theorem C6_sweep_amended :
    (∀ (run : ℚ → Sens.RunResult) (cfg : ℚ) (values : List ℚ),
      Sens.analise_sensibilidade (fun v => .ok (run v)) cfg values =
        .ok (((values.filter fun v => decide (v ≠ cfg) &&
                decide ((run v).status = "Optimal")).map
              fun v => (v, (run v).economia)), cfg)) ∧
    (∀ (e : String) (cfg : ℚ) (vs : List ℚ),
      Sens.analise_sensibilidade (fun _ => .error e) cfg ((cfg + 1) :: vs) =
        .error (e, cfg + 1)) := by
  constructor
  · intro run cfg values
    simpa [Sens.analise_sensibilidade] using
      sensLoop_total_runner run cfg values []
  · intro e cfg vs
    have hne : cfg + 1 ≠ cfg := by
      intro hcontra
      have h1 : (1 : ℚ) = 0 := by linarith
      norm_num at h1
    simp [Sens.analise_sensibilidade, Sens.sensLoop, hne]

/-- C10: whenever `analise_sensibilidade` returns normally, the swept
configuration entry holds the value it held on entry — the shared config is
not left mutated. -/
theorem C10_config_restored (runner : ℚ → Except String Sens.RunResult)
    (cfg : ℚ) (values : List ℚ) (res : List (ℚ × ℚ) × ℚ)
    (h : Sens.analise_sensibilidade runner cfg values = .ok res) :
    res.2 = cfg :=
  sensLoop_restores_config runner cfg values [] res h

/-- Witness for C10 at a concrete sweep: entry value 0, candidates `[1]`,
all-Optimal runner; the sweep returns with the configuration back at 0. -/
theorem C10_config_restored_witness :
    Sens.analise_sensibilidade okRunner 0 [1] = .ok ([(1, 1)], 0) ∧
    (([(1, 1)] : List (ℚ × ℚ)), (0 : ℚ)).2 = 0 :=
  ⟨by norm_num [Sens.analise_sensibilidade, Sens.sensLoop, okRunner],
   C10_config_restored okRunner 0 [1] ([(1, 1)], 0)
     (by norm_num [Sens.analise_sensibilidade, Sens.sensLoop, okRunner])⟩

end SolarAlloc
